import Mathlib

/-!
Verification of the core behaviours of RaspiStill.c
(host_applications/linux/apps/raspicam/RaspiStill.c).

The development shallowly embeds the relevant parts of the C source:
the timelapse branch of wait_for_next_frame, the encoder buffer
callback, the GPS sentence scan and coordinate normalization of
gps_update, the CommandQuality and CommandTimeout cases of
parse_cmdline, and add_exif_tag.  C signed arithmetic is modelled on
Int; C division and remainder truncate toward zero, so they are
rendered with Int.tdiv and Int.tmod (never the Lean `/` on Int, which
is Euclidean).  Byte buffers are modelled as lists of characters and
the C sscanf results as Option values.
-/

namespace RaspiStill

/-! ## Constants from RaspiStill.c -/

/-- RaspiStill.c:98 -/
def MAX_EXIF_PAYLOAD_LENGTH : Nat := 128

/-- RaspiStill.c:101 -/
def FRAME_NEXT_SINGLE : Nat := 0

/-- RaspiStill.c:102 -/
def FRAME_NEXT_TIMELAPSE : Nat := 1

/-- RaspiStill.c:103 -/
def FRAME_NEXT_KEYPRESS : Nat := 2

/-- RaspiStill.c:104 -/
def FRAME_NEXT_FOREVER : Nat := 3

/-- usage-error exit status, EX_USAGE from sysexits.h -/
def EX_USAGE : Nat := 64

/-! ## Timelapse scheduling (wait_for_next_frame, RaspiStill.c:1537-1585)

The FRAME_NEXT_TIMELAPSE case keeps one piece of persistent state, the
absolute deadline next_frame_ms (sentinel -1 before the first call).
Each call reads the clock, increments the frame counter, and either
establishes the deadline (first call) or compares it with the current
time.  The result record collects the updated frame counter, the
updated deadline, and the total number of milliseconds slept during
the call. -/

structure TimelapseResult where
  frame : Int
  next_frame_ms : Int
  sleep_ms : Int
deriving DecidableEq, Repr

/-- The FRAME_NEXT_TIMELAPSE case of wait_for_next_frame
(RaspiStill.c:1537-1585).  Arguments: timelapse is state->timelapse
(the configured interval in ms), next_frame_ms the persisted deadline
(-1 when not yet established), frame the frame counter on entry,
current_time the clock value read at RaspiStill.c:1509, and
time_after_sleep the clock value re-read at RaspiStill.c:1549 after
the initial full-interval sleep of the first call (only used on that
path).  C integer division truncates toward zero, hence Int.tdiv. -/
def timelapse_tick (timelapse next_frame_ms frame current_time time_after_sleep : Int) :
    TimelapseResult :=
  -- RaspiStill.c:1542  always need to increment by at least one, may add a skip later
  let frame := frame + 1
  if next_frame_ms = -1 then
    -- RaspiStill.c:1544-1553  first call: sleep a full interval, then establish the deadline
    { frame := frame
      next_frame_ms := time_after_sleep + timelapse
      sleep_ms := timelapse }
  else
    -- RaspiStill.c:1556
    let this_delay_ms := next_frame_ms - current_time
    if this_delay_ms < 0 then
      -- RaspiStill.c:1561  if (-this_delay_ms < -state->timelapse/2)
      if -this_delay_ms < Int.tdiv (-timelapse) 2 then
        -- RaspiStill.c:1563-1565  take the frame immediately, log the lateness
        { frame := frame
          next_frame_ms := next_frame_ms + timelapse
          sleep_ms := 0 }
      else
        -- RaspiStill.c:1569-1574  skip frames instead of bursting to catch up
        let nskip := 1 + Int.tdiv (-this_delay_ms) timelapse
        { frame := frame + nskip
          next_frame_ms := next_frame_ms + (nskip + 1) * timelapse
          sleep_ms := this_delay_ms + nskip * timelapse }
    else
      -- RaspiStill.c:1579-1580  on time: sleep the remaining delay
      { frame := frame
        next_frame_ms := next_frame_ms + timelapse
        sleep_ms := this_delay_ms }

/-! ## Encoder buffer callback (encoder_buffer_callback, RaspiStill.c:809-867)

One invocation of the callback is modelled as a pure function of the
environment it observes: whether port->userdata is non-null, whether
pData->file_handle is non-null (open output sink), and the value
fwrite would return if invoked.  The outcome records whether fwrite
ran, the bytes_written value compared against buffer->length, and
whether the completion semaphore was posted (complete flag,
RaspiStill.c:865-866). -/

structure MmalBufferHeader where
  length : Nat
  flag_frame_end : Bool
  flag_transmission_failed : Bool
deriving DecidableEq, Repr

structure CallbackCtx where
  has_userdata : Bool
  file_open : Bool
  fwrite_result : Nat
deriving DecidableEq, Repr

structure CallbackOutcome where
  wrote : Bool
  bytes_written : Nat
  complete : Bool
deriving DecidableEq, Repr

/-- encoder_buffer_callback (RaspiStill.c:809-867).  The buffer
release and re-dispatch to the port (RaspiStill.c:846-863) do not
affect the completion decision and are not modelled. -/
def encoder_buffer_callback (ctx : CallbackCtx) (buffer : MmalBufferHeader) :
    CallbackOutcome :=
  if ctx.has_userdata then
    -- RaspiStill.c:819  int bytes_written = buffer->length
    -- RaspiStill.c:821-828  if (buffer->length && pData->file_handle) fwrite(...)
    let do_write := (buffer.length != 0) && ctx.file_open
    let bytes_written := if do_write then ctx.fwrite_result else buffer.length
    -- RaspiStill.c:831-835  short write aborts this capture
    let complete := bytes_written != buffer.length
    -- RaspiStill.c:838-839  frame-end or transmission-failure marker
    let complete :=
      complete || buffer.flag_frame_end || buffer.flag_transmission_failed
    { wrote := do_write, bytes_written := bytes_written, complete := complete }
  else
    -- RaspiStill.c:841-844  no state: log only, complete stays 0
    { wrote := false, bytes_written := 0, complete := false }

/-- Condition under which one callback invocation observes a
completing event: userdata is present and either the performed write
was short (bytes written differ from the reported buffer length), or
the buffer carries the end-of-frame or transmission-failure marker. -/
def observes_completion (ctx : CallbackCtx) (buffer : MmalBufferHeader) : Bool :=
  ctx.has_userdata &&
    ((ctx.file_open && (buffer.length != 0) && (ctx.fwrite_result != buffer.length))
      || buffer.flag_frame_end || buffer.flag_transmission_failed)

/-- Number of completion-semaphore posts over a sequence of callback
invocations belonging to one armed capture. -/
def capture_posts (invs : List (CallbackCtx × MmalBufferHeader)) : Nat :=
  (invs.filter (fun inv => (encoder_buffer_callback inv.1 inv.2).complete)).length

/-- Number of invocations in the sequence that observe a completing
event. -/
def capture_completing (invs : List (CallbackCtx × MmalBufferHeader)) : Nat :=
  (invs.filter (fun inv => observes_completion inv.1 inv.2)).length

/-! ## GPS coordinate normalization (gps_update, RaspiStill.c:1726-1755 and 1770-1796)

Both the RMC and the GGA arm of gps_update normalize a raw minmea
coordinate (a signed value with a decimal scale) into the coordinate
record used for tagging.  The code is identical for the two sentence
types; latitude uses the north/south references and longitude the
east/west references. -/

inductive CardinalRef
  | north
  | south
  | east
  | west
deriving DecidableEq, Repr

structure Coordinate where
  ref : CardinalRef
  deg : Int
  min_scaled : Int
  min_scale : Int
deriving DecidableEq, Repr

/-- Latitude normalization from gps_update (RaspiStill.c:1728-1740 and
1770-1782): if (frame.latitude.value > 0) the reference is north,
otherwise the value is negated and the reference is south; then
deg = value / (scale*100), min_scaled = value % (scale*100),
min_scale = scale. -/
def normalize_latitude (value scale : Int) : Coordinate :=
  if 0 < value then
    { ref := CardinalRef.north
      deg := Int.tdiv value (scale * 100)
      min_scaled := Int.tmod value (scale * 100)
      min_scale := scale }
  else
    let value := -value
    { ref := CardinalRef.south
      deg := Int.tdiv value (scale * 100)
      min_scaled := Int.tmod value (scale * 100)
      min_scale := scale }

/-- Longitude normalization from gps_update (RaspiStill.c:1743-1755
and 1784-1796), same arithmetic with the east/west references. -/
def normalize_longitude (value scale : Int) : Coordinate :=
  if 0 < value then
    { ref := CardinalRef.east
      deg := Int.tdiv value (scale * 100)
      min_scaled := Int.tmod value (scale * 100)
      min_scale := scale }
  else
    let value := -value
    { ref := CardinalRef.west
      deg := Int.tdiv value (scale * 100)
      min_scaled := Int.tmod value (scale * 100)
      min_scale := scale }

/-! ## GPS sentence scan (gps_update, RaspiStill.c:1707-1813)

One iteration of the reader loop after the read(2) call: the
line-assembly buffer holds in_buffer valid bytes; the for loop at
RaspiStill.c:1712 walks an index i while i < in_buffer, and on each
newline extracts the bytes [start_line, i] as one sentence
(RaspiStill.c:1716-1718), advances start_line past it, and shrinks
in_buffer by the line length (RaspiStill.c:1806).  After the loop the
memmove at RaspiStill.c:1812 discards the consumed start_line bytes.
Because in_buffer shrinks while the loop bound i < in_buffer still
compares against it, the scan can stop before later complete
sentences.

The loop is rendered with an explicit step counter (fuel).  The C
loop increments i by exactly one per iteration and never runs i past
the byte count, so fuel = buffer.length performs exactly the
iterations of the C loop: when the fuel reaches zero, i equals the
total byte count, where i < in_buffer is false as well. -/

def gps_scan_loop (buffer : List Char) :
    Nat → Nat → Nat → Nat → List (List Char) → List (List Char) × Nat × Nat
  | 0, _, start_line, in_buffer, acc => (acc, start_line, in_buffer)
  | fuel + 1, i, start_line, in_buffer, acc =>
    if i < in_buffer then
      if buffer.getD i ' ' = '\n' then
        -- RaspiStill.c:1716-1719, 1806: extract [start_line, i], consume it
        gps_scan_loop buffer fuel (i + 1) (i + 1)
          (in_buffer - (i - start_line + 1))
          (acc ++ [(buffer.drop start_line).take (i - start_line + 1)])
      else
        gps_scan_loop buffer fuel (i + 1) start_line in_buffer acc
    else
      (acc, start_line, in_buffer)

/-- One full iteration of the gps_update scan over a buffer of valid
bytes: returns the sentences handed to minmea_sentence_id in order,
and the buffer contents left after the memmove compaction
(RaspiStill.c:1810-1813 keeps in_buffer bytes starting at
start_line). -/
def gps_scan_iteration (buffer : List Char) : List (List Char) × List Char :=
  let r := gps_scan_loop buffer buffer.length 0 0 buffer.length []
  (r.1, (buffer.drop r.2.1).take r.2.2)

/-- The complete newline-terminated sentences of a byte buffer, in
order, each including its terminating newline; trailing bytes after
the last newline belong to no complete sentence.  cur accumulates the
bytes of the sentence being assembled. -/
def sentences_from (cur : List Char) : List Char → List (List Char)
  | [] => []
  | c :: rest =>
    if c = '\n' then (cur ++ [c]) :: sentences_from [] rest
    else sentences_from (cur ++ [c]) rest

/-- All complete newline-terminated sentences of a buffer. -/
def complete_sentences (buf : List Char) : List (List Char) :=
  sentences_from [] buf

/-! ## Command line parsing (parse_cmdline, RaspiStill.c:413-732)

The two option handlers the claims are about, as functions of the
sscanf outcome (none models a string that does not parse as %u) and
the state fields they read and write. -/

structure QualityParseResult where
  quality : Nat
  valid : Bool
  warned : Bool
deriving DecidableEq, Repr

/-- CommandQuality case of parse_cmdline (RaspiStill.c:465-478).
quality0 is state->quality on entry; warned records the
"Setting max quality = 100" message at RaspiStill.c:470. -/
def parse_quality (arg : Option Nat) (quality0 : Nat) : QualityParseResult :=
  match arg with
  | some q =>
    if 100 < q then { quality := 100, valid := true, warned := true }
    else { quality := q, valid := true, warned := false }
  | none => { quality := quality0, valid := false, warned := false }

/-- Exit taken by main (RaspiStill.c:1869-1873): when parse_cmdline
returns non-zero (valid was cleared) the process exits with EX_USAGE
before any pipeline construction; otherwise it proceeds (none). -/
def main_usage_exit (valid : Bool) : Option Nat :=
  if valid then none else some EX_USAGE

structure TimeoutParseResult where
  timeout : Nat
  frameNextMethod : Nat
  valid : Bool
deriving DecidableEq, Repr

/-- CommandTimeout case of parse_cmdline (RaspiStill.c:526-539).
timeout0 and method0 are state->timeout and state->frameNextMethod on
entry. -/
def parse_timeout (arg : Option Nat) (timeout0 method0 : Nat) : TimeoutParseResult :=
  match arg with
  | some t =>
    { timeout := t
      -- RaspiStill.c:531-532
      frameNextMethod :=
        if t = 0 ∧ method0 = FRAME_NEXT_SINGLE then FRAME_NEXT_FOREVER else method0
      valid := true }
  | none => { timeout := timeout0, frameNextMethod := method0, valid := false }

/-! ## EXIF tag validation (add_exif_tag, RaspiStill.c:1279-1302)

The C string argument is modelled as an Option over a character list
(none for a null pointer).  The accepted path copies the tag (strncpy
bounded by MAX_EXIF_PAYLOAD_LENGTH-1 bytes, RaspiStill.c:1293) and
forwards it to the encoder output port. -/

inductive ExifResult
  | einval
  | forwarded (payload : List Char)
deriving DecidableEq, Repr

/-- add_exif_tag (RaspiStill.c:1279-1302): returns MMAL_EINVAL when
the tag is null, contains no '=' (strchr), or is longer than
MAX_EXIF_PAYLOAD_LENGTH-1 (RaspiStill.c:1288-1289); otherwise the
payload is forwarded via mmal_port_parameter_set. -/
def add_exif_tag (exif_tag : Option (List Char)) : ExifResult :=
  match exif_tag with
  | none => ExifResult.einval
  | some s =>
    if s.contains '=' = false ∨ MAX_EXIF_PAYLOAD_LENGTH - 1 < s.length then
      ExifResult.einval
    else
      ExifResult.forwarded (s.take (MAX_EXIF_PAYLOAD_LENGTH - 1))

/-! ## Helper lemmas about the timelapse branch -/

/-- For a positive interval the guard of the slightly-late branch,
-this_delay_ms < -state->timelapse/2 (RaspiStill.c:1561), compares a
positive quantity against a non-positive one and is therefore never
true: the branch is dead code. -/
lemma slightly_late_guard_false (timelapse d : Int) (hI : 0 < timelapse) (hd : d < 0) :
    ¬(-d < Int.tdiv (-timelapse) 2) := by
  have h1 : Int.tdiv (-timelapse) 2 ≤ 0 := by
    rw [Int.neg_tdiv]
    exact neg_nonpos_of_nonneg (Int.tdiv_nonneg hI.le (by norm_num))
  omega

/-- Established-deadline, on-time evaluation of the timelapse case. -/
lemma timelapse_tick_eq_ontime (timelapse next_frame_ms frame current_time time_after_sleep : Int)
    (hest : next_frame_ms ≠ -1) (hd : ¬(next_frame_ms - current_time < 0)) :
    timelapse_tick timelapse next_frame_ms frame current_time time_after_sleep =
      { frame := frame + 1
        next_frame_ms := next_frame_ms + timelapse
        sleep_ms := next_frame_ms - current_time } := by
  simp only [timelapse_tick]
  rw [if_neg hest, if_neg hd]

/-- Established-deadline, late evaluation of the timelapse case: for a
positive interval every late call lands in the skip branch
(RaspiStill.c:1569-1574), because the slightly-late guard is never
true. -/
lemma timelapse_tick_eq_late (timelapse next_frame_ms frame current_time time_after_sleep : Int)
    (hI : 0 < timelapse) (hest : next_frame_ms ≠ -1)
    (hd : next_frame_ms - current_time < 0) :
    timelapse_tick timelapse next_frame_ms frame current_time time_after_sleep =
      { frame := frame + 1 + (1 + Int.tdiv (-(next_frame_ms - current_time)) timelapse)
        next_frame_ms := next_frame_ms +
          ((1 + Int.tdiv (-(next_frame_ms - current_time)) timelapse) + 1) * timelapse
        sleep_ms := (next_frame_ms - current_time) +
          (1 + Int.tdiv (-(next_frame_ms - current_time)) timelapse) * timelapse } := by
  simp only [timelapse_tick]
  rw [if_neg hest, if_pos hd,
    if_neg (slightly_late_guard_false timelapse (next_frame_ms - current_time) hI hd)]

/-- C1 (code_bug): the spec says a call that is late by less than half
an interval (here 300 ms against interval 1000 ms) takes the frame
immediately with no sleep, advances the frame counter by 1 and the
deadline by one interval.  The code instead lands in the skip branch,
because the guard at RaspiStill.c:1561 compares the positive lateness
against the non-positive -interval/2, contradicting the comment at
RaspiStill.c:1563: with next_due = 1000 and now = 1300 it advances the
frame counter by 2, sleeps 700 ms, and advances the deadline by
2000 ms. -/
theorem timelapse_slightly_late_takes_skip_branch :
    timelapse_tick 1000 1000 0 1300 0 =
      { frame := 2, next_frame_ms := 3000, sleep_ms := 700 } := by decide

/-- C2 (counterexample): in the specification scenario — interval
1000 ms, deadline 1000, call arriving at 3600 (2600 ms late, skip
computes to 3) — the claim expects the frame counter to advance by
exactly skip = 3 and the call to sleep 2600 + 3*1000 ms; the code
advances the counter by 4 (the unconditional increment at
RaspiStill.c:1542 plus nskip) and sleeps 400 ms. -/
theorem timelapse_skip_scenario_cx :
    (timelapse_tick 1000 1000 0 3600 0).frame = 4 ∧
    (timelapse_tick 1000 1000 0 3600 0).frame ≠ 0 + 3 ∧
    (timelapse_tick 1000 1000 0 3600 0).sleep_ms = 400 ∧
    (timelapse_tick 1000 1000 0 3600 0).sleep_ms ≠ 2600 + 3 * 1000 ∧
    (timelapse_tick 1000 1000 0 3600 0).next_frame_ms = 1000 + 4000 := by decide

/-- C2 (amended): when an established-deadline timelapse call is late
by at least half an interval, with skip = 1 + |delay|/interval
(truncating division) the frame counter advances by 1 + skip (the
unconditional increment plus the skip), the call sleeps
skip*interval - |delay| = delay + skip*interval milliseconds, and the
deadline advances by (skip+1)*interval; for interval 1000 ms and a
call 2600 ms past the deadline, skip = 3, the counter advances by 4
and the deadline by 4000 ms. -/
theorem timelapse_skip_rule (timelapse next_frame_ms frame current_time time_after_sleep : Int)
    (hI : 0 < timelapse) (hest : next_frame_ms ≠ -1)
    (hd : next_frame_ms - current_time < 0)
    (_hhalf : Int.tdiv timelapse 2 ≤ -(next_frame_ms - current_time)) :
    (timelapse_tick timelapse next_frame_ms frame current_time time_after_sleep).frame =
      frame + 1 + (1 + Int.tdiv (-(next_frame_ms - current_time)) timelapse) ∧
    (timelapse_tick timelapse next_frame_ms frame current_time time_after_sleep).sleep_ms =
      (next_frame_ms - current_time) +
        (1 + Int.tdiv (-(next_frame_ms - current_time)) timelapse) * timelapse ∧
    (timelapse_tick timelapse next_frame_ms frame current_time time_after_sleep).next_frame_ms =
      next_frame_ms +
        ((1 + Int.tdiv (-(next_frame_ms - current_time)) timelapse) + 1) * timelapse := by
  rw [timelapse_tick_eq_late timelapse next_frame_ms frame current_time time_after_sleep
    hI hest hd]
  exact ⟨rfl, rfl, rfl⟩

/-- C2 witness: the amended skip rule instantiated at the
specification scenario (interval 1000, deadline 1000, call at 3600). -/
theorem timelapse_skip_rule_witness :
    (timelapse_tick 1000 1000 0 3600 0).frame =
      0 + 1 + (1 + Int.tdiv (-(1000 - 3600)) 1000) ∧
    (timelapse_tick 1000 1000 0 3600 0).sleep_ms =
      (1000 - 3600) + (1 + Int.tdiv (-(1000 - 3600)) 1000) * 1000 ∧
    (timelapse_tick 1000 1000 0 3600 0).next_frame_ms =
      1000 + ((1 + Int.tdiv (-(1000 - 3600)) 1000) + 1) * 1000 :=
  timelapse_skip_rule 1000 1000 0 3600 0 (by decide) (by decide) (by decide) (by decide)

/-- C3 (confirmed): for a positive interval, once the deadline is
established (not the -1 sentinel) every call advances it by a positive
whole multiple of the interval — it never decreases — and a call that
observes a non-negative delay sleeps exactly that delay and advances
the deadline by exactly one interval. -/
theorem timelapse_deadline_monotone
    (timelapse next_frame_ms frame current_time time_after_sleep : Int)
    (hI : 0 < timelapse) (hest : next_frame_ms ≠ -1) :
    (∃ k : Int, 1 ≤ k ∧
      (timelapse_tick timelapse next_frame_ms frame current_time time_after_sleep).next_frame_ms =
        next_frame_ms + k * timelapse) ∧
    next_frame_ms <
      (timelapse_tick timelapse next_frame_ms frame current_time time_after_sleep).next_frame_ms ∧
    (0 ≤ next_frame_ms - current_time →
      (timelapse_tick timelapse next_frame_ms frame current_time time_after_sleep).sleep_ms =
        next_frame_ms - current_time ∧
      (timelapse_tick timelapse next_frame_ms frame current_time time_after_sleep).next_frame_ms =
        next_frame_ms + timelapse) := by
  by_cases hd : next_frame_ms - current_time < 0
  · rw [timelapse_tick_eq_late timelapse next_frame_ms frame current_time time_after_sleep
      hI hest hd]
    dsimp only
    have h0 : 0 ≤ Int.tdiv (-(next_frame_ms - current_time)) timelapse :=
      Int.tdiv_nonneg (by omega) hI.le
    refine ⟨⟨(1 + Int.tdiv (-(next_frame_ms - current_time)) timelapse) + 1, by omega, rfl⟩,
      ?_, by omega⟩
    have hk : (1 : Int) ≤ (1 + Int.tdiv (-(next_frame_ms - current_time)) timelapse) + 1 := by
      omega
    have hmul := le_mul_of_one_le_left hI.le hk
    omega
  · rw [timelapse_tick_eq_ontime timelapse next_frame_ms frame current_time time_after_sleep
      hest hd]
    dsimp only
    refine ⟨⟨1, le_refl 1, by rw [one_mul]⟩, by omega, fun _ => ⟨rfl, rfl⟩⟩

/-- C3 witness: an on-time call (deadline 1000, now 500) sleeps the
500 ms delay and advances the deadline to 2000. -/
theorem timelapse_deadline_monotone_witness :
    (∃ k : Int, 1 ≤ k ∧
      (timelapse_tick 1000 1000 0 500 0).next_frame_ms = 1000 + k * 1000) ∧
    (1000 : Int) < (timelapse_tick 1000 1000 0 500 0).next_frame_ms ∧
    (0 ≤ (1000 : Int) - 500 →
      (timelapse_tick 1000 1000 0 500 0).sleep_ms = 1000 - 500 ∧
      (timelapse_tick 1000 1000 0 500 0).next_frame_ms = 1000 + 1000) :=
  timelapse_deadline_monotone 1000 1000 0 500 0 (by decide) (by decide)

/-! ## Encoder callback theorems -/

/-- C4 (counterexample): one armed capture whose buffer sequence hits
a short write (reported length 10 but only 5 bytes written) on an
earlier buffer and then the end-of-frame marker on the final buffer
posts the completion semaphore twice, not exactly once. -/
theorem capture_double_post_cx :
    capture_posts
        [({ has_userdata := true, file_open := true, fwrite_result := 5 },
          { length := 10, flag_frame_end := false, flag_transmission_failed := false }),
         ({ has_userdata := true, file_open := true, fwrite_result := 10 },
          { length := 10, flag_frame_end := true, flag_transmission_failed := false })] = 2 ∧
    (2 : Nat) ≠ 1 := by decide

/-- C4 (amended): a single callback invocation posts the completion
signal if and only if it observes a completing condition — a short
write of a performed write, an end-of-frame marker, or a
transmission-failure marker, with the userdata present — and across
the invocations of one armed capture the signal is posted once per
invocation observing such a condition: exactly once when exactly one
invocation does (the normal case: all writes complete and only the
final buffer carries the end marker), and more than once when several
do. -/
theorem encoder_callback_post_count :
    (∀ ctx buffer,
      (encoder_buffer_callback ctx buffer).complete = observes_completion ctx buffer) ∧
    (∀ invs, capture_posts invs = capture_completing invs) := by
  have h : ∀ ctx buffer,
      (encoder_buffer_callback ctx buffer).complete = observes_completion ctx buffer := by
    intro ctx buffer
    obtain ⟨hu, fo, fw⟩ := ctx
    obtain ⟨len, fe, tf⟩ := buffer
    cases hu <;> cases fo <;> cases fe <;> cases tf <;>
      by_cases hl : len = 0 <;> by_cases hf : fw = len <;>
      simp [encoder_buffer_callback, observes_completion, hl, hf]
  refine ⟨h, fun invs => ?_⟩
  unfold capture_posts capture_completing
  exact congrArg List.length (List.filter_congr (fun x _ => h x.1 x.2))

/-- C7 (confirmed): when the callback runs with its userdata present
but no open output sink (null file handle), no write is performed,
the bytes-written count is recorded as the full reported buffer
length — so the short-write branch is never taken — and the
completion semaphore is posted exactly when the buffer carries the
end-of-frame or the transmission-failure marker. -/
theorem encoder_callback_missing_sink (ctx : CallbackCtx) (buffer : MmalBufferHeader)
    (hu : ctx.has_userdata = true) (hf : ctx.file_open = false) :
    (encoder_buffer_callback ctx buffer).wrote = false ∧
    (encoder_buffer_callback ctx buffer).bytes_written = buffer.length ∧
    ((encoder_buffer_callback ctx buffer).complete = true ↔
      buffer.flag_frame_end = true ∨ buffer.flag_transmission_failed = true) := by
  unfold encoder_buffer_callback
  simp [hu, hf]

/-- C7 witness: a ten-byte end-of-frame buffer delivered while the
sink is closed. -/
theorem encoder_callback_missing_sink_witness :
    (encoder_buffer_callback
      { has_userdata := true, file_open := false, fwrite_result := 0 }
      { length := 10, flag_frame_end := true, flag_transmission_failed := false }).wrote
        = false ∧
    (encoder_buffer_callback
      { has_userdata := true, file_open := false, fwrite_result := 0 }
      { length := 10, flag_frame_end := true, flag_transmission_failed := false }).bytes_written
        = 10 ∧
    ((encoder_buffer_callback
      { has_userdata := true, file_open := false, fwrite_result := 0 }
      { length := 10, flag_frame_end := true, flag_transmission_failed := false }).complete
        = true ↔ true = true ∨ false = true) :=
  encoder_callback_missing_sink
    { has_userdata := true, file_open := false, fwrite_result := 0 }
    { length := 10, flag_frame_end := true, flag_transmission_failed := false } rfl rfl

/-! ## Coordinate normalization theorems -/

/-- C5 (counterexample): the hemisphere test in gps_update is
value > 0, strictly, so the raw value 0 — which is non-negative — is
normalized with hemisphere South (resp. West), not North (resp. East)
as the claim states for all non-negative values. -/
theorem normalize_zero_hemisphere_cx :
    (normalize_latitude 0 1).ref = CardinalRef.south ∧
    (normalize_longitude 0 1).ref = CardinalRef.west ∧
    (normalize_latitude 0 1).ref ≠ CardinalRef.north ∧
    (normalize_longitude 0 1).ref ≠ CardinalRef.east := by decide

/-- C5 (amended): for every raw signed value and positive scale,
normalization yields degrees = |value| / (scale*100) and
scaled-minutes = |value| mod (scale*100) (truncating division and
remainder on the negated, hence non-negative, value), keeps the
original scale as the minute-scale, and assigns hemisphere North/East
exactly when the value is strictly positive, South/West when it is
zero or negative. -/
theorem normalize_coordinate_rule (value scale : Int) (_hs : 0 < scale) :
    (normalize_latitude value scale).deg = Int.tdiv |value| (scale * 100) ∧
    (normalize_latitude value scale).min_scaled = Int.tmod |value| (scale * 100) ∧
    (normalize_latitude value scale).min_scale = scale ∧
    ((normalize_latitude value scale).ref = CardinalRef.north ↔ 0 < value) ∧
    (value ≤ 0 → (normalize_latitude value scale).ref = CardinalRef.south) ∧
    (normalize_longitude value scale).deg = Int.tdiv |value| (scale * 100) ∧
    (normalize_longitude value scale).min_scaled = Int.tmod |value| (scale * 100) ∧
    (normalize_longitude value scale).min_scale = scale ∧
    ((normalize_longitude value scale).ref = CardinalRef.east ↔ 0 < value) ∧
    (value ≤ 0 → (normalize_longitude value scale).ref = CardinalRef.west) := by
  by_cases hv : 0 < value
  · simp [normalize_latitude, normalize_longitude, hv, abs_of_pos hv]
  · have hv' : value ≤ 0 := by omega
    simp [normalize_latitude, normalize_longitude, hv, abs_of_nonpos hv']

/-- C5 witness: the specification example, raw value -12345 at scale
100: hemisphere South, degrees 1, scaled-minutes 2345, minute-scale
100. -/
theorem normalize_coordinate_rule_witness :
    ((normalize_latitude (-12345) 100).ref = CardinalRef.south ∧
      (normalize_latitude (-12345) 100).deg = 1 ∧
      (normalize_latitude (-12345) 100).min_scaled = 2345 ∧
      (normalize_latitude (-12345) 100).min_scale = 100) ∧
    (0 : Int) < 100 :=
  ⟨⟨(normalize_coordinate_rule (-12345) 100 (by decide)).2.2.2.2.1 (by decide),
    by decide, by decide, (normalize_coordinate_rule (-12345) 100 (by decide)).2.2.1⟩,
    by decide⟩

/-! ## EXIF tag and command line theorems -/

/-- C8 (confirmed): add_exif_tag returns the invalid-argument status
exactly when the tag string is null, contains no '=' character, or is
longer than MAX_EXIF_PAYLOAD_LENGTH - 1 = 127 characters; every other
key=value pair is accepted and forwarded unchanged to the encoder
port. -/
theorem add_exif_tag_rejects_iff :
    add_exif_tag none = ExifResult.einval ∧
    (∀ s : List Char,
      (add_exif_tag (some s) = ExifResult.einval ↔
        s.contains '=' = false ∨ MAX_EXIF_PAYLOAD_LENGTH - 1 < s.length)) ∧
    (∀ s : List Char, s.contains '=' = true → s.length ≤ MAX_EXIF_PAYLOAD_LENGTH - 1 →
      add_exif_tag (some s) = ExifResult.forwarded s) := by
  refine ⟨rfl, fun s => ?_, fun s hc hl => ?_⟩
  · show (if s.contains '=' = false ∨ MAX_EXIF_PAYLOAD_LENGTH - 1 < s.length then
        ExifResult.einval
      else ExifResult.forwarded (s.take (MAX_EXIF_PAYLOAD_LENGTH - 1))) =
        ExifResult.einval ↔ _
    split_ifs with h
    · exact ⟨fun _ => h, fun _ => rfl⟩
    · constructor
      · intro hbad
        exact absurd hbad (by simp)
      · intro hcond
        exact absurd hcond h
  · have hcond : ¬(s.contains '=' = false ∨ MAX_EXIF_PAYLOAD_LENGTH - 1 < s.length) := by
      rintro (h1 | h2)
      · rw [hc] at h1
        exact Bool.noConfusion h1
      · omega
    show (if s.contains '=' = false ∨ MAX_EXIF_PAYLOAD_LENGTH - 1 < s.length then
        ExifResult.einval
      else ExifResult.forwarded (s.take (MAX_EXIF_PAYLOAD_LENGTH - 1))) =
        ExifResult.forwarded s
    rw [if_neg hcond, List.take_of_length_le hl]

/-- C9 (counterexample): a numeric quality argument of 101 — outside
the valid 1..100 range — is not rejected: the CommandQuality handler
clamps it to 100 (with a warning), leaves the command line valid, and
main proceeds to pipeline construction instead of exiting with the
usage-error status. -/
theorem quality_overrange_proceeds_cx :
    parse_quality (some 101) 85 = { quality := 100, valid := true, warned := true } ∧
    main_usage_exit (parse_quality (some 101) 85).valid = none ∧
    main_usage_exit (parse_quality (some 101) 85).valid ≠ some EX_USAGE := by decide

/-- C9 (amended): a quality argument that parses numerically is never
rejected: values above 100 are clamped to 100 with a warning and the
run proceeds to pipeline construction; only a quality argument that
does not parse as a number invalidates the command line, in which
case main exits with the usage-error status before building the
pipeline. -/
theorem quality_clamped_not_rejected (q quality0 : Nat) (hq : 100 < q) :
    parse_quality (some q) quality0 =
      { quality := 100, valid := true, warned := true } ∧
    main_usage_exit (parse_quality (some q) quality0).valid = none ∧
    (parse_quality none quality0).valid = false ∧
    main_usage_exit (parse_quality none quality0).valid = some EX_USAGE := by
  simp [parse_quality, main_usage_exit, hq]

/-- C9 witness: the amended rule instantiated at quality 101 with
prior quality 85. -/
theorem quality_clamped_not_rejected_witness :
    parse_quality (some 101) 85 = { quality := 100, valid := true, warned := true } ∧
    main_usage_exit (parse_quality (some 101) 85).valid = none ∧
    (parse_quality none 85).valid = false ∧
    main_usage_exit (parse_quality none 85).valid = some EX_USAGE :=
  quality_clamped_not_rejected 101 85 (by decide)

/-- C10 (confirmed): if the timeout option parses as 0 while the
frame-advance method is still FRAME_NEXT_SINGLE, parsing switches the
method to FRAME_NEXT_FOREVER; a previously chosen non-Single method is
left untouched; and after handling the option the state can never
combine the Single method with a zero timeout. -/
theorem timeout_zero_switches_single_to_forever :
    ∀ (t timeout0 method0 : Nat),
      (parse_timeout (some 0) timeout0 FRAME_NEXT_SINGLE).frameNextMethod =
        FRAME_NEXT_FOREVER ∧
      (method0 ≠ FRAME_NEXT_SINGLE →
        (parse_timeout (some t) timeout0 method0).frameNextMethod = method0) ∧
      ¬((parse_timeout (some t) timeout0 method0).frameNextMethod = FRAME_NEXT_SINGLE ∧
        (parse_timeout (some t) timeout0 method0).timeout = 0) := by
  intro t timeout0 method0
  refine ⟨by simp [parse_timeout], fun hm => ?_, fun hcontra => ?_⟩
  · simp [parse_timeout, hm]
  · obtain ⟨h1, h2⟩ := hcontra
    dsimp only [parse_timeout] at h1 h2
    by_cases hm : method0 = FRAME_NEXT_SINGLE
    · rw [if_pos ⟨h2, hm⟩] at h1
      exact absurd h1 (by decide)
    · rw [if_neg (fun hand => hm hand.2)] at h1
      exact hm h1

/-! ## GPS sentence scan theorems -/

lemma getD_drop_eq (l : List Char) (m j : Nat) :
    (l.drop m).getD j ' ' = l.getD (m + j) ' ' := by
  simp [List.getD_eq_getElem?_getD, List.getElem?_drop]

/-- Splitting the sentence decomposition at the first newline: if the
first k bytes are not newlines and byte k is one, the sentences are
the first k+1 bytes (closing the sentence under assembly) followed by
the sentences of the rest. -/
lemma sentences_from_break :
    ∀ (k : Nat) (cur l : List Char),
      (∀ j, j < k → l.getD j ' ' ≠ '\n') → l.getD k ' ' = '\n' → k < l.length →
      sentences_from cur l =
        (cur ++ l.take (k + 1)) :: sentences_from [] (l.drop (k + 1)) := by
  intro k
  induction k with
  | zero =>
    intro cur l hpre hk hlen
    cases l with
    | nil => simp at hlen
    | cons c rest =>
      have hc : c = '\n' := by simpa using hk
      subst hc
      simp [sentences_from]
  | succ k ih =>
    intro cur l hpre hk hlen
    cases l with
    | nil => simp at hlen
    | cons c rest =>
      have hc : c ≠ '\n' := by simpa using hpre 0 (Nat.succ_pos k)
      simp only [sentences_from, if_neg hc]
      rw [ih (cur ++ [c]) rest (fun j hj => by simpa using hpre (j + 1) (by omega))
        (by simpa using hk) (by simpa using hlen)]
      simp [List.take_succ_cons, List.drop_succ_cons, List.append_assoc]

/-- A buffer with no newline byte holds no complete sentence. -/
lemma sentences_from_of_no_newline :
    ∀ (cur l : List Char), (∀ j, j < l.length → l.getD j ' ' ≠ '\n') →
      sentences_from cur l = [] := by
  intro cur l
  induction l generalizing cur with
  | nil => intro _; rfl
  | cons c rest ih =>
    intro h
    have hc : c ≠ '\n' := by simpa using h 0 (by simp)
    simp only [sentences_from, if_neg hc]
    exact ih (cur ++ [c]) (fun j hj => by simpa using h (j + 1) (by simpa using Nat.succ_lt_succ hj))

/-- Invariant of the gps_update scan loop: from a state where
start_line counts the consumed bytes (with in_buffer the complement),
the bytes from start_line up to i hold no newline, and the
accumulated lines are exactly the decomposition of the consumed
bytes, the loop returns a state of the same shape with start_line not
decreased; and if it returns with nothing ever consumed, the whole
buffer holds no newline. -/
lemma gps_scan_loop_spec (buffer : List Char) :
    ∀ (fuel i start_line in_buffer : Nat) (acc : List (List Char)),
      start_line + in_buffer = buffer.length →
      start_line ≤ i →
      in_buffer ≤ fuel + i →
      (∀ j, start_line ≤ j → j < i → buffer.getD j ' ' ≠ '\n') →
      acc.flatten = buffer.take start_line →
      acc ++ complete_sentences (buffer.drop start_line) = complete_sentences buffer →
      start_line ≤ (gps_scan_loop buffer fuel i start_line in_buffer acc).2.1 ∧
      (gps_scan_loop buffer fuel i start_line in_buffer acc).2.1 +
        (gps_scan_loop buffer fuel i start_line in_buffer acc).2.2 = buffer.length ∧
      (gps_scan_loop buffer fuel i start_line in_buffer acc).1.flatten =
        buffer.take (gps_scan_loop buffer fuel i start_line in_buffer acc).2.1 ∧
      (gps_scan_loop buffer fuel i start_line in_buffer acc).1 ++
        complete_sentences
          (buffer.drop (gps_scan_loop buffer fuel i start_line in_buffer acc).2.1) =
        complete_sentences buffer ∧
      ((gps_scan_loop buffer fuel i start_line in_buffer acc).2.1 = 0 →
        ∀ j, j < buffer.length → buffer.getD j ' ' ≠ '\n') := by
  intro fuel
  induction fuel with
  | zero =>
    intro i start_line in_buffer acc h1 h2 h3 h4 h5 h6
    simp only [gps_scan_loop]
    refine ⟨le_refl _, h1, h5, h6, ?_⟩
    intro hs j hjn
    exact h4 j (by omega) (by omega)
  | succ fuel ih =>
    intro i start_line in_buffer acc h1 h2 h3 h4 h5 h6
    simp only [gps_scan_loop]
    by_cases hlt : i < in_buffer
    · rw [if_pos hlt]
      by_cases hnl : buffer.getD i ' ' = '\n'
      · rw [if_pos hnl]
        have hL : start_line + (i - start_line + 1) = i + 1 := by omega
        have hflat : (acc ++ [(buffer.drop start_line).take (i - start_line + 1)]).flatten =
            buffer.take (i + 1) := by
          rw [List.flatten_append, h5]
          simp only [List.flatten_cons, List.flatten_nil, List.append_nil]
          conv_rhs => rw [← hL, List.take_add]
        have hbreak := sentences_from_break (i - start_line) [] (buffer.drop start_line)
          (fun j hj => by
            rw [getD_drop_eq]
            exact h4 (start_line + j) (by omega) (by omega))
          (by
            rw [getD_drop_eq, show start_line + (i - start_line) = i from by omega]
            exact hnl)
          (by rw [List.length_drop]; omega)
        have hdd : (buffer.drop start_line).drop (i - start_line + 1) =
            buffer.drop (i + 1) := by
          rw [List.drop_drop, hL]
        have hsent : (acc ++ [(buffer.drop start_line).take (i - start_line + 1)]) ++
            complete_sentences (buffer.drop (i + 1)) = complete_sentences buffer := by
          unfold complete_sentences at h6 ⊢
          rw [hbreak, hdd] at h6
          rw [← h6]
          simp [List.append_assoc]
        obtain ⟨m1, m2, m3, m4, m5⟩ := ih (i + 1) (i + 1)
          (in_buffer - (i - start_line + 1))
          (acc ++ [(buffer.drop start_line).take (i - start_line + 1)])
          (by omega) (le_refl _) (by omega)
          (fun j hj1 hj2 => absurd (lt_of_le_of_lt hj1 hj2) (lt_irrefl _))
          hflat hsent
        exact ⟨by omega, m2, m3, m4, m5⟩
      · rw [if_neg hnl]
        refine ih (i + 1) start_line in_buffer acc h1 (by omega) (by omega) ?_ h5 h6
        intro j hj1 hj2
        rcases Nat.lt_or_ge j i with hji | hji
        · exact h4 j hj1 hji
        · have hji' : j = i := by omega
          rw [hji']
          exact hnl
    · rw [if_neg hlt]
      dsimp only
      refine ⟨le_refl _, h1, h5, h6, ?_⟩
      intro hs j hjn
      exact h4 j (by omega) (by omega)

/-- C6 (counterexample): a line-assembly buffer holding two complete
newline-terminated sentences.  The scan extracts and offers only the
first one in this iteration — the loop bound i < in_buffer shrinks
when the first line is consumed — while the second remains in the
buffer, so not every complete sentence present is extracted. -/
theorem gps_scan_second_sentence_left_cx :
    (gps_scan_iteration ['a', '\n', 'b', '\n']).1 = [['a', '\n']] ∧
    complete_sentences ['a', '\n', 'b', '\n'] = [['a', '\n'], ['b', '\n']] ∧
    (gps_scan_iteration ['a', '\n', 'b', '\n']).1 ≠
      complete_sentences ['a', '\n', 'b', '\n'] ∧
    (gps_scan_iteration ['a', '\n', 'b', '\n']).2 = ['b', '\n'] := by decide

/-- C6 (amended): in every iteration of the telemetry reader loop the
scan extracts — and offers to the parser, in order — an initial
segment of the complete newline-terminated sentences present in the
line-assembly buffer: at least the first complete sentence whenever
one is present, but not necessarily all of them, because the scan
bound shrinks as bytes are consumed; the sentences left behind stay
in the buffer for a later iteration, and exactly the consumed bytes
are discarded from the buffer afterwards (the extracted sentences
followed by the compacted buffer reassemble the original buffer, and
the complete sentences of the compacted buffer are exactly the ones
not extracted). -/
theorem gps_scan_extracts_initial_segment :
    ∀ buffer : List Char,
      (gps_scan_iteration buffer).1.flatten ++ (gps_scan_iteration buffer).2 = buffer ∧
      (gps_scan_iteration buffer).1 ++ complete_sentences (gps_scan_iteration buffer).2 =
        complete_sentences buffer ∧
      (complete_sentences buffer ≠ [] → (gps_scan_iteration buffer).1 ≠ []) := by
  intro buffer
  obtain ⟨m1, m2, m3, m4, m5⟩ := gps_scan_loop_spec buffer buffer.length 0 0 buffer.length []
    (by omega) (le_refl 0) (by omega)
    (fun j hj1 hj2 => absurd hj2 (Nat.not_lt_zero j))
    (by simp) (by simp)
  have hrem : (buffer.drop (gps_scan_loop buffer buffer.length 0 0 buffer.length []).2.1).take
      (gps_scan_loop buffer buffer.length 0 0 buffer.length []).2.2 =
      buffer.drop (gps_scan_loop buffer buffer.length 0 0 buffer.length []).2.1 := by
    apply List.take_of_length_le
    rw [List.length_drop]
    omega
  simp only [gps_scan_iteration]
  refine ⟨?_, ?_, ?_⟩
  · rw [hrem, m3]
    exact List.take_append_drop _ buffer
  · rw [hrem]
    exact m4
  · intro hne hnil
    rw [hnil] at m3
    have htake : buffer.take (gps_scan_loop buffer buffer.length 0 0 buffer.length []).2.1
        = [] := m3.symm
    rcases List.take_eq_nil_iff.mp htake with h0 | h0
    · exact hne (show complete_sentences buffer = [] from
        sentences_from_of_no_newline [] buffer (m5 h0))
    · rw [h0] at hne
      exact hne rfl

end RaspiStill
